import Mathlib

/- Embedding of the Armoni81/TestDiscordBot repository: the job
   classification, formatting and dispatch pipeline of `post_jobs.py`,
   `post_security_jobs.py` and `post_support_jobs.py`.

   Modelling conventions: Python strings are `String` (character lists via
   `.data`); a Python dictionary field is an `Option` field of a structure,
   where `none` stands for an absent key or an explicit `None` value;
   network effects (HTTP fetch, webhook delivery) are explicit outcome
   parameters; a raised exception is `Except.error`. -/

/-- Python's `needle in hay` on strings: contiguous substring test. -/
def listContains (hay needle : List Char) : Bool :=
  hay.tails.any (fun s => needle.isPrefixOf s)

/-- Python's `str.lower()`; ASCII case folding, which covers every keyword
in the classifier table. -/
def pyLower (l : List Char) : List Char := l.map Char.toLower

/-- Python truthiness of a string: truthy iff nonempty. -/
def pyTruthy (s : String) : Bool := s ≠ ""

/-- Python `a or b` on strings. -/
def pyOr (a b : String) : String := if a ≠ "" then a else b

/-- Python `str.strip()`: remove leading and trailing whitespace. -/
def pyStrip (s : String) : String :=
  ⟨((s.data.dropWhile Char.isWhitespace).reverse.dropWhile
      Char.isWhitespace).reverse⟩

/-- The seven routing categories of `post_jobs.py` (keys of `CHANNEL_KEYWORDS`). -/
inductive Channel where
  | data
  | operations
  | security
  | development
  | management
  | network
  | supporthelp
deriving DecidableEq

/-- Table `CHANNEL_KEYWORDS` from `post_jobs.py` lines 10-18, in declaration
(= Python dict insertion) order. -/
def CHANNEL_KEYWORDS : List (Channel × List String) :=
  [ (.data, ["data", "analyst", "analytics", "scientist", "engineer", "bi",
             "business intelligence", "sql", "tableau", "power bi"]),
    (.operations, ["operations", "ops", "devops", "sre", "site reliability",
                   "infrastructure", "systems", "platform"]),
    (.security, ["security", "infosec", "cybersecurity", "cyber",
                 "penetration", "soc", "grc", "compliance", "risk"]),
    (.development, ["developer", "software engineer", "frontend", "backend",
                    "full stack", "fullstack", "mobile", "web", "programmer",
                    "coding"]),
    (.management, ["manager", "director", "lead", "head of", "chief", "vp",
                   "vice president", "executive", "cto", "cio"]),
    (.network, ["network", "networking", "cisco", "routing", "switching",
                "firewall", "vpn", "wan", "lan"]),
    (.supporthelp, ["support", "help desk", "helpdesk", "customer service",
                    "technical support", "it support", "service desk"]) ]

/-- The text `f"{title} {description} {' '.join(categories or [])}".lower()` from
`categorize_job` (post_jobs.py line 23). -/
def searchText (title description : String) (categories : Option (List String)) : List Char :=
  pyLower (title ++ " " ++ description ++ " "
            ++ String.intercalate " " (categories.getD [])).data

/-- Whether `any(keyword in search_text for keyword in keywords)` holds. -/
def matchesAny (text : List Char) (kws : List String) : Bool :=
  kws.any (fun k => listContains text k.data)

/-- The `for channel, keywords in CHANNEL_KEYWORDS.items()` loop of
`categorize_job`: return the first table entry with a matching keyword. -/
def firstMatch (text : List Char) : List (Channel × List String) → Option Channel
  | [] => none
  | (c, kws) :: rest => if matchesAny text kws then some c else firstMatch text rest

/-- Function `categorize_job` from post_jobs.py lines 21-29. -/
def categorize_job (title description : String)
    (categories : Option (List String)) : Option Channel :=
  firstMatch (searchText title description categories) CHANNEL_KEYWORDS

/-! ### HTML tag stripping (`strip_html`) -/

/-- Chars following a `<`: find the first `>` (the end of a `<[^>]*>`
match) and return the remainder after it; `none` when the tag is
unterminated, in which case the regex does not match. -/
def findTagEnd : List Char → Option (List Char)
  | [] => none
  | c :: rest => if c = '>' then some rest else findTagEnd rest

/-- Fuel-driven core of `strip_html` (post_jobs.py lines 71-74,
post_support_jobs.py lines 70-72): remove every leftmost match of
`<[^>]*>`, exactly as `re.sub` does.  Each step consumes at least one
character, so fuel `≥` list length never runs out. -/
def stripHtmlAux : Nat → List Char → List Char
  | 0, l => l
  | _, [] => []
  | fuel + 1, c :: rest =>
    if c = '<' then
      match findTagEnd rest with
      | some rest' => stripHtmlAux fuel rest'
      | none => c :: stripHtmlAux fuel rest
    else c :: stripHtmlAux fuel rest

/-- Function `strip_html(text)`: `re.sub(r'<[^>]*>', '', text)`. -/
def stripHtml (l : List Char) : List Char := stripHtmlAux l.length l

/-! ### Job records -/

/-- A `salary_range` mapping. -/
structure SalaryRange where
  min : Option Nat := none
  max : Option Nat := none
  currency : Option String := none
  period : Option String := none
deriving DecidableEq

/-- A `yoe_range` mapping. -/
structure YoeRange where
  min : Option Nat := none
  max : Option Nat := none
deriving DecidableEq

/-- One entry of the `locations` array. -/
structure LocRec where
  city : Option String := none
  region : Option String := none
  country : Option String := none
deriving DecidableEq

/-- A job record from the search response, with every field optional
(`none` = key absent or value `None`). -/
structure JobRec where
  job_title : Option String := none
  company_name : Option String := none
  description : Option String := none
  requirements_summary : Option String := none
  application_link : Option String := none
  job_type : Option String := none
  location_type : Option String := none
  locations : Option (List LocRec) := none
  salary_range : Option SalaryRange := none
  yoe_range : Option YoeRange := none
  skills : Option (List String) := none
  date_posted : Option String := none
  job_categories : Option (List String) := none
deriving DecidableEq

/-- A raw element of the response's jobs array: either a mapping or a
malformed (non-`dict`) entry. -/
inductive Entry where
  | job (j : JobRec)
  | malformed
deriving DecidableEq

/-! ### Field formatting helpers -/

/-- Reverse-order 3-digit chunks, for Python's `{:,}` digit grouping. -/
def chunk3 : List Char → List (List Char)
  | [] => []
  | a :: b :: c :: rest => [a, b, c] :: chunk3 rest
  | l => [l]

/-- Python's `f"{n:,}"` for a nonnegative integer: decimal digits grouped
in threes by commas. -/
def numComma (n : Nat) : String :=
  ⟨(List.intercalate [','] (chunk3 (Nat.repr n).data.reverse)).reverse⟩

/-- Python truthiness of an optional integer field: `None` and `0` are falsy. -/
def truthyNum (o : Option Nat) : Bool := o.getD 0 ≠ 0

/-- Python `f"{x}"` for an optional integer (`None` renders as "None"). -/
def optNumRepr : Option Nat → String
  | none => "None"
  | some n => Nat.repr n

/-- Function `format_location` from post_jobs.py lines 32-40. -/
def format_location : Option (List LocRec) → String
  | none => "Remote/Not specified"
  | some [] => "Remote/Not specified"
  | some (loc :: _) =>
    let parts := ([loc.city, loc.region, loc.country].filterMap id).filter
      (fun p => p ≠ "")
    if parts.isEmpty then "Remote/Not specified"
    else String.intercalate ", " parts

/-- Function `format_experience` from post_jobs.py lines 43-53. -/
def format_experience : Option YoeRange → String
  | none => "Not specified"
  | some r =>
    if r.min == r.max then optNumRepr r.min ++ "+ years"
    else optNumRepr r.min ++ "-" ++ optNumRepr r.max ++ " years"

/-- Function `format_salary` from post_jobs.py lines 56-68: note the unconditional
`/{period}` suffix, with `period` defaulting to "year". -/
def format_salary : Option SalaryRange → String
  | none => "Not disclosed"
  | some r =>
    let currency := r.currency.getD "USD"
    let period := r.period.getD "year"
    if truthyNum r.min && truthyNum r.max then
      "$" ++ numComma (r.min.getD 0) ++ " - $" ++ numComma (r.max.getD 0)
        ++ " " ++ currency ++ "/" ++ period
    else "Not disclosed"

/-- post_jobs.py line 80: `strip_html(description)[:300] + '...' if
description else 'No description available'` — by Python precedence the
ellipsis is appended whenever the description is non-empty. -/
def jobsCleanDescription (description : String) : String :=
  if description ≠ "" then ⟨(stripHtml description.data).take 300 ++ "...".data⟩
  else "No description available"

/-! ### Embed construction -/

/-- One Discord embed field. -/
structure EmbedField where
  name : String
  value : String
  inlineFlag : Bool
deriving DecidableEq

/-- The structured message delivered to a webhook. -/
structure DiscordEmbed where
  title : String
  description : String
  color : Nat
  fields : List EmbedField
  footerText : String
  url : Option String
deriving DecidableEq

/-- Function `format_job_embed` from post_jobs.py lines 77-125.  A non-mapping job
raises `AttributeError` at the first `.get`, modelled as `Except.error`. -/
def formatJobEmbedJobs : Entry → Except Unit DiscordEmbed
  | .malformed => .error ()
  | .job j => .ok {
      title := j.job_title.getD "Untitled Position"
      description := jobsCleanDescription (j.description.getD "")
      color := 0x5865F2
      fields := [
        ⟨"Company", j.company_name.getD "Not specified", true⟩,
        ⟨"Location", format_location j.locations, true⟩,
        ⟨"Type", j.job_type.getD "Not specified", true⟩,
        ⟨"Experience", format_experience j.yoe_range, true⟩,
        ⟨"Salary", format_salary j.salary_range, true⟩,
        ⟨"Remote", j.location_type.getD "Not specified", true⟩ ]
      footerText := "Posted: " ++ j.date_posted.getD "Unknown" ++ " • Via Hirebase API"
      url := j.application_link }

/-- Description assembly of post_security_jobs.format_job_embed lines
183-185: first non-empty of requirements_summary/description, truncated at
400 chars (no HTML stripping in this variant). -/
def secDescription (requirements_summary description : Option String) : String :=
  let d := pyOr (requirements_summary.getD "") (description.getD "")
  if d.data.length > 400 then ⟨d.data.take 400 ++ "...".data⟩ else d

/-- Lines 100-101 of post_support_jobs.py: truncate the stripped
description at 400 characters, appending "..." when truncation occurs. -/
def truncate400 (l : List Char) : String :=
  if l.length > 400 then ⟨l.take 400 ++ "...".data⟩ else ⟨l⟩

/-- Description assembly of post_support_jobs.format_job_embed lines
96-103: first non-empty of requirements_summary/description, HTML-stripped,
truncated at 400 chars with an ellipsis, placeholder when absent. -/
def supDescription (requirements_summary description : Option String) : String :=
  let d := pyOr (requirements_summary.getD "") (description.getD "")
  if d ≠ "" then truncate400 (stripHtml d.data)
  else "Click below to view full job details"

/-- Location assembly shared by the security/support formatters. -/
def secLocation (locations : Option (List LocRec)) (location_type : String) : String :=
  match locations.getD [] with
  | [] => pyOr location_type "Not specified"
  | loc :: _ =>
    let city := loc.city.getD ""
    let country := loc.country.getD ""
    if city ≠ "" && country ≠ "" then city ++ ", " ++ country
    else pyOr city (pyOr country location_type)

/-- Optional Type field of the security/support formatters. -/
def secTypeField (job_type location_type : String) : Option EmbedField :=
  if job_type ≠ "" then
    some ⟨"Type", job_type
      ++ (if location_type ≠ "" then " • " ++ location_type else ""), true⟩
  else none

/-- Optional Salary field of the security/support formatters: rendered only
when min and max are both truthy, with no period suffix; omitted (not
defaulted) otherwise. -/
def secSalaryField (salary_range : Option SalaryRange) : Option EmbedField :=
  match salary_range with
  | none => none
  | some r =>
    if truthyNum r.min && truthyNum r.max then
      some ⟨"Salary", "$" ++ numComma (r.min.getD 0) ++ " - $"
        ++ numComma (r.max.getD 0) ++ " " ++ r.currency.getD "USD", true⟩
    else none

/-- Optional Experience field of the security/support formatters. -/
def secYoeField (yoe_range : Option YoeRange) : Option EmbedField :=
  match yoe_range with
  | none => none
  | some r =>
    let mn := r.min.getD 0
    let mx := r.max.getD 0
    if mn ≠ 0 || mx ≠ 0 then
      some ⟨"Experience",
        if mn = mx then Nat.repr mn ++ "+ years"
        else Nat.repr mn ++ "-" ++ Nat.repr mx ++ " years", true⟩
    else none

/-- Optional Key Skills field of the security/support formatters. -/
def secSkillsField (skills : Option (List String)) : Option EmbedField :=
  match skills.getD [] with
  | [] => none
  | l => some ⟨"Key Skills", String.intercalate ", " (l.take 5), false⟩

/-- Function `format_job_embed` from post_security_jobs.py lines 152-262: `none`
(the sentinel "invalid" result) for a non-mapping job. -/
def formatJobEmbedSec : Entry → Option DiscordEmbed
  | .malformed => none
  | .job j =>
    let location_type := j.location_type.getD ""
    let job_type := j.job_type.getD ""
    let job_url := j.application_link.getD ""
    some {
      title := j.job_title.getD "Unknown Position"
      description := pyOr (secDescription j.requirements_summary j.description)
        "Click below to view full job details"
      color := 5814783
      fields := [⟨"Company", j.company_name.getD "Unknown Company", true⟩,
                 ⟨"Location", secLocation j.locations location_type, true⟩]
        ++ (secTypeField job_type location_type).toList
        ++ (secSalaryField j.salary_range).toList
        ++ (secYoeField j.yoe_range).toList
        ++ (secSkillsField j.skills).toList
      footerText := "Posted " ++ j.date_posted.getD "recently" ++ " via Hirebase"
      url := if job_url ≠ "" && job_url.startsWith "http" then some job_url else none }

/-- Function `format_job_embed` from post_support_jobs.py lines 75-180: like the
security variant, but the description is HTML-stripped and defaulted inside
`supDescription`, and the colour differs. -/
def formatJobEmbedSup : Entry → Option DiscordEmbed
  | .malformed => none
  | .job j =>
    let location_type := j.location_type.getD ""
    let job_type := j.job_type.getD ""
    let job_url := j.application_link.getD ""
    some {
      title := j.job_title.getD "Unknown Position"
      description := supDescription j.requirements_summary j.description
      color := 0xE74C3C
      fields := [⟨"Company", j.company_name.getD "Unknown Company", true⟩,
                 ⟨"Location", secLocation j.locations location_type, true⟩]
        ++ (secTypeField job_type location_type).toList
        ++ (secSalaryField j.salary_range).toList
        ++ (secYoeField j.yoe_range).toList
        ++ (secSkillsField j.skills).toList
      footerText := "Posted " ++ j.date_posted.getD "recently" ++ " via Hirebase"
      url := if job_url ≠ "" && job_url.startsWith "http" then some job_url else none }

/-! ### Dispatch -/

/-- The per-job posting loop shared by post_security_jobs.post_to_discord
(lines 291-304) and post_support_jobs.post_to_discord (lines 200-213).  The
whole loop runs inside one `try`, so one failed delivery
(`raise_for_status`) aborts the remaining posts.  `deliver i` is the
delivery outcome of the message for the i-th job; the result is the list
of job indices whose delivery was attempted and whether the loop completed
without an exception. -/
def postLoopAbort (fmt : Entry → Option DiscordEmbed) (deliver : Nat → Bool) :
    List Entry → Nat → List Nat × Bool
  | [], _ => ([], true)
  | e :: rest, i =>
    match fmt e with
    | none => postLoopAbort fmt deliver rest (i + 1)
    | some _ =>
      if deliver i then
        let r := postLoopAbort fmt deliver rest (i + 1)
        (i :: r.1, r.2)
      else ([i], false)

/-- Function `post_to_discord` from post_security_jobs.py lines 265-314: a leading
summary message, then every fetched job — no cap.  `deliverSummary` is the
delivery outcome of the summary message; result as in `postLoopAbort`,
with `false` also when the job list was empty or the summary failed. -/
def secPostToDiscord (deliverSummary : Bool) (deliver : Nat → Bool)
    (jobs : List Entry) : List Nat × Bool :=
  if jobs.isEmpty then ([], false)
  else if deliverSummary then postLoopAbort formatJobEmbedSec deliver jobs 0
  else ([], false)

/-- Function `post_to_discord` from post_support_jobs.py lines 183-223: like the
security variant but capped at the first 10 jobs (`jobs[:10]`). -/
def supPostToDiscord (deliverSummary : Bool) (deliver : Nat → Bool)
    (jobs : List Entry) : List Nat × Bool :=
  if jobs.isEmpty then ([], false)
  else if deliverSummary then
    postLoopAbort formatJobEmbedSup deliver (jobs.take 10) 0
  else ([], false)

/-- The per-channel posting loop of post_jobs.main lines 265-275: each post
runs in its own `try`, so a failure is logged and the loop continues.
Returns the attempted indices and the number of successful posts
(`total_posted` contributions). -/
def jobsChannelLoop (deliver : Nat → Bool) : List JobRec → Nat → List Nat × Nat
  | [], _ => ([], 0)
  | _ :: rest, i =>
    let r := jobsChannelLoop deliver rest (i + 1)
    (i :: r.1, (if deliver i then 1 else 0) + r.2)

/-- post_jobs.main line 262 plus the loop: a channel posts
`channel_jobs[:5]`. -/
def jobsDispatchChannel (deliver : Nat → Bool) (channelJobs : List JobRec) :
    List Nat × Nat :=
  jobsChannelLoop deliver (channelJobs.take 5) 0

/-! ### Fetch and main -/

/-- Outcome of the job-search HTTP call.  A malformed response body raises
`requests.exceptions.JSONDecodeError`, a `RequestException` subclass, and
behaves as `reqError`; a well-formed response without a jobs array behaves
as `ok []`. -/
inductive FetchOutcome where
  | ok (jobs : List Entry)
  | httpError
  | reqError

/-- Functions `fetch_cybersecurity_jobs` (post_security_jobs.py lines 54-149) and
`fetch_security_jobs` (post_support_jobs.py lines 8-68): both catch fetch
errors and return the empty list. -/
def fetchJobsNonfatal : FetchOutcome → List Entry
  | .ok jobs => jobs
  | .httpError => []
  | .reqError => []

/-- Function `fetch_jobs` from post_jobs.py lines 136-194: a missing API key and
both fetch error classes raise. -/
def fetchJobsFatal (api_key : String) (o : FetchOutcome) :
    Except Unit (List Entry) :=
  if api_key = "" then .error ()
  else match o with
    | .ok jobs => .ok jobs
    | .httpError => .error ()
    | .reqError => .error ()

/-- Function `validate_environment` from post_security_jobs.py lines 25-51: collect
every missing name, raise `ConfigError` listing all of them. -/
def validate_environment (api_key webhook_url : Option String) :
    Except String (String × String) :=
  let missing :=
    (if pyTruthy (api_key.getD "") then [] else ["HIREBASE_API_KEY"])
      ++ (if pyTruthy (webhook_url.getD "") then [] else ["DISCORD_SECURITY_HOOK"])
  if missing.isEmpty then .ok (api_key.getD "", webhook_url.getD "")
  else .error ("Missing required environment variables: "
    ++ String.intercalate ", " missing)

/-- Observable outcome of one run: process exit code, number of search-API
calls, number of webhook deliveries attempted, and the error message when
the run aborted on a configuration error. -/
structure RunOutcome where
  exitCode : Nat
  fetchCalls : Nat
  postCalls : Nat
  errMsg : Option String
deriving DecidableEq

/-- Function `main` of post_security_jobs.py lines 347-387 with `TEST_MODE` unset. -/
def secMain (api_key webhook_url : Option String) (o : FetchOutcome)
    (deliverSummary : Bool) (deliver : Nat → Bool) : RunOutcome :=
  match validate_environment api_key webhook_url with
  | .error msg =>
    { exitCode := 1, fetchCalls := 0, postCalls := 0, errMsg := some msg }
  | .ok _ =>
    let jobs := fetchJobsNonfatal o
    if jobs.isEmpty then
      { exitCode := 0, fetchCalls := 1, postCalls := 0, errMsg := none }
    else
      let r := secPostToDiscord deliverSummary deliver jobs
      { exitCode := if r.2 then 0 else 1, fetchCalls := 1,
        postCalls := 1 + r.1.length, errMsg := none }

/-- Function `main` of post_support_jobs.py lines 226-264: the API key is checked
first and its absence raises alone, before the webhook check. -/
def supMain (api_key_env webhook_env : Option String) (o : FetchOutcome)
    (deliverSummary : Bool) (deliver : Nat → Bool) : RunOutcome :=
  let api_key := pyStrip (api_key_env.getD "")
  let webhook_url := pyStrip (webhook_env.getD "")
  if api_key = "" then
    { exitCode := 1, fetchCalls := 0, postCalls := 0,
      errMsg := some "HIREBASE_API_KEY not configured" }
  else if webhook_url = "" then
    { exitCode := 1, fetchCalls := 0, postCalls := 0,
      errMsg := some "DISCORD_SECURITY_HOOK not configured" }
  else
    let jobs := fetchJobsNonfatal o
    if jobs.isEmpty then
      { exitCode := 0, fetchCalls := 1, postCalls := 0, errMsg := none }
    else
      let r := supPostToDiscord deliverSummary deliver jobs
      { exitCode := if r.2 then 0 else 1, fetchCalls := 1,
        postCalls := 1 + r.1.length, errMsg := none }

/-- The categorization loop of post_jobs.main lines 234-244: `.get` on a
non-mapping entry raises `AttributeError`, which propagates to the
top-level handler before any post is made. -/
def extractRecs : List Entry → Except Unit (List JobRec)
  | [] => .ok []
  | .malformed :: _ => .error ()
  | .job j :: rest => (extractRecs rest).map (fun l => j :: l)

/-- The classification applied to one job record in post_jobs.main. -/
def categorizeOf (j : JobRec) : Option Channel :=
  categorize_job (j.job_title.getD "") (j.description.getD "") j.job_categories

/-- Bucket `jobs_by_channel[c]` after the categorization loop: the fetched jobs
classified to `c`, in fetch order (appended in loop order). -/
def jobsByChannel (recs : List JobRec) (c : Channel) : List JobRec :=
  recs.filter (fun j => categorizeOf j == some c)

/-- The channels in the iteration order of post_jobs.main's posting loop
(dict insertion order). -/
def channelOrder : List Channel :=
  [.data, .operations, .security, .development, .management, .network,
   .supporthelp]

/-- Function `main` of post_jobs.py lines 197-281.  `webhooks c` is the configured
hook for channel `c` (`none` = unset or empty, both falsy); `deliver c i`
is the delivery outcome of the i-th post of channel `c`.  Returns exit
code, posts attempted and posts succeeded (`total_posted`). -/
def jobsMain (api_key : String) (o : FetchOutcome)
    (webhooks : Channel → Option String) (deliver : Channel → Nat → Bool) :
    Nat × Nat × Nat :=
  match fetchJobsFatal api_key o with
  | .error _ => (1, 0, 0)
  | .ok entries =>
    if entries.isEmpty then (0, 0, 0)
    else match extractRecs entries with
    | .error _ => (1, 0, 0)
    | .ok recs =>
      let step := fun (acc : Nat × Nat) (c : Channel) =>
        match webhooks c with
        | none => acc
        | some _ =>
          let bucket := jobsByChannel recs c
          if bucket.isEmpty then acc
          else
            let r := jobsDispatchChannel (deliver c) bucket
            (acc.1 + r.1.length, acc.2 + r.2)
      let t := channelOrder.foldl step (0, 0)
      (0, t.1, t.2)

/-! ### Substring test versus `List.IsInfix` -/

theorem listContains_iff_occurs (hay needle : List Char) :
    listContains hay needle = true ↔ needle <:+: hay := by
  unfold listContains
  rw [List.any_eq_true]
  constructor
  · rintro ⟨s, hs, hp⟩
    rw [List.mem_tails] at hs
    rw [List.isPrefixOf_iff_prefix] at hp
    exact List.infix_iff_prefix_suffix.2 ⟨s, hp, hs⟩
  · intro h
    obtain ⟨s, hp, hs⟩ := List.infix_iff_prefix_suffix.1 h
    exact ⟨s, (List.mem_tails s hay).2 hs, (List.isPrefixOf_iff_prefix).2 hp⟩

/-! ### First-match characterization of the classifier loop -/

theorem firstMatch_eq_some_iff (text : List Char)
    (tbl : List (Channel × List String)) (c : Channel) :
    firstMatch text tbl = some c ↔
      ∃ (i : Nat) (kws : List String), tbl[i]? = some (c, kws) ∧
        matchesAny text kws = true ∧
        ∀ (j : Nat) (p : Channel × List String), j < i → tbl[j]? = some p →
          matchesAny text p.2 = false := by
  induction tbl with
  | nil => simp [firstMatch]
  | cons hd rest ih =>
    obtain ⟨c₀, k₀⟩ := hd
    cases h : matchesAny text k₀ with
    | true =>
      have hstep : firstMatch text ((c₀, k₀) :: rest) = some c₀ := by
        simp [firstMatch, h]
      rw [hstep]
      constructor
      · rintro hc
        injection hc with hc
        exact ⟨0, k₀, by simp [hc], h, fun j p hj _ => absurd hj (Nat.not_lt_zero j)⟩
      · rintro ⟨i, kws, hget, hm, hmin⟩
        cases i with
        | zero =>
          simp only [List.getElem?_cons_zero, Option.some.injEq] at hget
          injection hget with hc hk
          rw [hc]
        | succ n =>
          have h0 := hmin 0 (c₀, k₀) (Nat.succ_pos n) (by simp)
          simp [h] at h0
    | false =>
      have hstep : firstMatch text ((c₀, k₀) :: rest) = firstMatch text rest := by
        simp [firstMatch, h]
      rw [hstep, ih]
      constructor
      · rintro ⟨i, kws, hget, hm, hmin⟩
        refine ⟨i + 1, kws, by simpa using hget, hm, ?_⟩
        intro j p hj hg
        cases j with
        | zero =>
          simp only [List.getElem?_cons_zero, Option.some.injEq] at hg
          rw [← hg]
          exact h
        | succ m =>
          exact hmin m p (Nat.lt_of_succ_lt_succ hj) (by simpa using hg)
      · rintro ⟨i, kws, hget, hm, hmin⟩
        cases i with
        | zero =>
          simp only [List.getElem?_cons_zero, Option.some.injEq] at hget
          injection hget with hc hk
          rw [hk] at h
          rw [h] at hm
          cases hm
        | succ n =>
          refine ⟨n, kws, by simpa using hget, hm, ?_⟩
          intro j p hj hg
          exact hmin (j + 1) p (Nat.succ_lt_succ hj) (by simpa using hg)

theorem firstMatch_eq_none_iff (text : List Char)
    (tbl : List (Channel × List String)) :
    firstMatch text tbl = none ↔ ∀ p ∈ tbl, matchesAny text p.2 = false := by
  induction tbl with
  | nil => simp [firstMatch]
  | cons hd rest ih =>
    obtain ⟨c₀, k₀⟩ := hd
    cases h : matchesAny text k₀ with
    | true => simp [firstMatch, h]
    | false =>
      have hstep : firstMatch text ((c₀, k₀) :: rest) = firstMatch text rest := by
        simp [firstMatch, h]
      rw [hstep, ih]
      simp only [List.mem_cons]
      constructor
      · rintro hall p (rfl | hp)
        · exact h
        · exact hall p hp
      · intro hall p hp
        exact hall p (Or.inr hp)

theorem matchesAny_iff (text : List Char) (kws : List String) :
    matchesAny text kws = true ↔ ∃ k ∈ kws, k.data <:+: text := by
  unfold matchesAny
  rw [List.any_eq_true]
  constructor
  · rintro ⟨k, hk, h⟩
    exact ⟨k, hk, (listContains_iff_occurs text k.data).1 h⟩
  · rintro ⟨k, hk, h⟩
    exact ⟨k, hk, (listContains_iff_occurs text k.data).2 h⟩

theorem matchesAny_eq_false_iff (text : List Char) (kws : List String) :
    matchesAny text kws = false ↔ ¬ ∃ k ∈ kws, k.data <:+: text := by
  rw [Bool.eq_false_iff]
  exact not_congr (matchesAny_iff text kws)

/-- A substring of the lower-cased title is a substring of the whole
search text built by `categorize_job`. -/
theorem searchText_title_occurs (title d : String) (c : Option (List String))
    (k : List Char) (h : k <:+: pyLower title.data) :
    k <:+: searchText title d c := by
  refine h.trans (List.IsPrefix.isInfix ?_)
  have hpre : ∀ (s t : String), s.data <+: (s ++ t).data := by
    intro s t
    rw [String.data_append]
    exact List.prefix_append s.data t.data
  have hdata : title.data <+:
      (title ++ " " ++ d ++ " "
        ++ String.intercalate " " (c.getD [])).data :=
    ((hpre title " ").trans ((hpre (title ++ " ") d).trans
      ((hpre (title ++ " " ++ d) " ").trans
        (hpre (title ++ " " ++ d ++ " ") (String.intercalate " " (c.getD []))))))
  unfold searchText pyLower
  exact hdata.map Char.toLower

/-! ### Claim C1 -/

/-- C1: for every title, description and optional hint list, `categorize_job`
concatenates them into one lower-cased search text (`searchText`), scans the
fixed `CHANNEL_KEYWORDS` table in declaration order (data, operations,
security, development, management, network, supporthelp), returns the first
category one of whose keywords occurs as a substring of the search text, and
returns `none` (unclassified) when no category's keyword matches. -/
theorem C1_categorize_job_first_match (title description : String)
    (categories : Option (List String)) :
    (∀ c : Channel, categorize_job title description categories = some c ↔
      ∃ (i : Nat) (kws : List String), CHANNEL_KEYWORDS[i]? = some (c, kws) ∧
        (∃ k ∈ kws, k.data <:+: searchText title description categories) ∧
        ∀ (j : Nat) (p : Channel × List String), j < i →
          CHANNEL_KEYWORDS[j]? = some p →
          ¬ ∃ k ∈ p.2, k.data <:+: searchText title description categories) ∧
    (categorize_job title description categories = none ↔
      ∀ p ∈ CHANNEL_KEYWORDS,
        ¬ ∃ k ∈ p.2, k.data <:+: searchText title description categories) := by
  constructor
  · intro c
    rw [categorize_job, firstMatch_eq_some_iff]
    simp only [matchesAny_iff, matchesAny_eq_false_iff]
  · rw [categorize_job, firstMatch_eq_none_iff]
    simp only [matchesAny_eq_false_iff]

/-! ### Claim C2 -/

/-- C2 counterexample: for title "SOC Analyst" and description
"incident response", `categorize_job` returns `data`, not `security`: the
data category is checked first and its keyword "analyst" occurs in
"soc analyst". -/
theorem C2_counterexample :
    categorize_job "SOC Analyst" "incident response" none = some Channel.data ∧
    some Channel.data ≠ some Channel.security := by
  exact ⟨by decide, by decide⟩

/-- C2 amended: for the input title "SOC Analyst" with a description
containing "incident response" (and no hints), `categorize_job` returns the
category `data` — the data keyword "analyst" occurs in the lower-cased
title and the data category is checked before security. -/
theorem C2_amended (description : String)
    (h : listContains (pyLower description.data) "incident response".data = true) :
    categorize_job "SOC Analyst" description none = some Channel.data := by
  have hana : ("analyst".data) <:+: searchText "SOC Analyst" description none := by
    apply searchText_title_occurs
    rw [← listContains_iff_occurs]
    decide
  rw [categorize_job, firstMatch_eq_some_iff]
  refine ⟨0, ["data", "analyst", "analytics", "scientist", "engineer", "bi",
              "business intelligence", "sql", "tableau", "power bi"],
          by decide, ?_, fun j p hj _ => absurd hj (Nat.not_lt_zero j)⟩
  rw [matchesAny_iff]
  exact ⟨"analyst", by simp, hana⟩

/-- C2 witness: instantiated at description "incident response". -/
theorem C2_amended_witness :
    categorize_job "SOC Analyst" "incident response" none = some Channel.data :=
  C2_amended "incident response" (by decide)

/-! ### Claim C10 -/

/-- C10: every input whose lower-cased search text contains "mobile" (for
example title "Mobile Developer") is classified as `data`: the data keyword
"bi" occurs as a substring of "mobile" and the data category is checked
first, so the development keyword "mobile" is never reached. -/
theorem C10_mobile_classified_data (title description : String)
    (categories : Option (List String))
    (h : listContains (searchText title description categories)
      "mobile".data = true) :
    categorize_job title description categories = some Channel.data := by
  rw [listContains_iff_occurs] at h
  have hbi : ("bi".data) <:+: searchText title description categories := by
    refine List.IsInfix.trans ?_ h
    rw [← listContains_iff_occurs]
    decide
  rw [categorize_job, firstMatch_eq_some_iff]
  refine ⟨0, ["data", "analyst", "analytics", "scientist", "engineer", "bi",
              "business intelligence", "sql", "tableau", "power bi"],
          by decide, ?_, fun j p hj _ => absurd hj (Nat.not_lt_zero j)⟩
  rw [matchesAny_iff]
  exact ⟨"bi", by simp, hbi⟩

/-- C10 witness: title "Mobile Developer" is classified as `data`. -/
theorem C10_witness :
    listContains (searchText "Mobile Developer" "" none) "mobile".data = true ∧
    categorize_job "Mobile Developer" "" none = some Channel.data :=
  ⟨by decide, C10_mobile_classified_data "Mobile Developer" "" none (by decide)⟩

/-! ### Dispatch loop lemmas -/

theorem range_map_add_succ (n i : Nat) :
    (List.range (n + 1)).map (fun x => x + i) =
      i :: (List.range n).map (fun x => x + (i + 1)) := by
  rw [List.range_succ_eq_map, List.map_cons, List.map_map]
  have hf : ((fun x => x + i) ∘ (fun x => x + 1)) = fun x => x + (i + 1) := by
    funext x
    simp only [Function.comp]
    omega
  rw [hf, Nat.zero_add]

/-- The post_jobs per-channel loop attempts every message in order and
counts exactly the successful deliveries. -/
theorem jobsChannelLoop_spec (deliver : Nat → Bool) (jobs : List JobRec)
    (i : Nat) :
    jobsChannelLoop deliver jobs i =
      ((List.range jobs.length).map (fun x => x + i),
       ((List.range jobs.length).map (fun x => x + i)).countP deliver) := by
  induction jobs generalizing i with
  | nil => simp [jobsChannelLoop]
  | cons j rest ih =>
    simp only [jobsChannelLoop, ih (i + 1), List.length_cons, range_map_add_succ]
    refine Prod.ext rfl ?_
    simp only [List.countP_cons]
    cases hd : deliver i <;> simp [hd] <;> omega

/-- The security/support posting loop, when every delivery succeeds,
attempts exactly the well-formed messages, in order, and completes. -/
theorem postLoopAbort_all_success (fmt : Entry → Option DiscordEmbed)
    (hfmt : ∀ j : JobRec, (fmt (Entry.job j)).isSome = true)
    (jobs : List JobRec) (i : Nat) :
    postLoopAbort fmt (fun _ => true) (jobs.map Entry.job) i =
      ((List.range jobs.length).map (fun x => x + i), true) := by
  induction jobs generalizing i with
  | nil => simp [postLoopAbort]
  | cons j rest ih =>
    obtain ⟨e, he⟩ := Option.isSome_iff_exists.1 (hfmt j)
    simp only [List.map_cons, postLoopAbort, he, if_true, ih (i + 1),
      List.length_cons, range_map_add_succ]

/-- A malformed entry in the middle of an otherwise well-formed batch is
skipped by the security/support posting loop: with all deliveries
succeeding, every other message is attempted and the loop completes. -/
theorem postLoopAbort_malformed_middle (fmt : Entry → Option DiscordEmbed)
    (hfmt : ∀ j : JobRec, (fmt (Entry.job j)).isSome = true)
    (hmal : fmt Entry.malformed = none)
    (pre post : List JobRec) (i : Nat) :
    (postLoopAbort fmt (fun _ => true)
        (pre.map Entry.job ++ [Entry.malformed] ++ post.map Entry.job) i).1.length =
      pre.length + post.length ∧
    (postLoopAbort fmt (fun _ => true)
        (pre.map Entry.job ++ [Entry.malformed] ++ post.map Entry.job) i).2 = true := by
  induction pre generalizing i with
  | nil =>
    have hl : (([] : List JobRec).map Entry.job ++ [Entry.malformed]
        ++ post.map Entry.job) = Entry.malformed :: post.map Entry.job := by
      simp
    rw [hl]
    simp only [postLoopAbort, hmal]
    rw [postLoopAbort_all_success fmt hfmt post (i + 1)]
    simp
  | cons j rest ih =>
    obtain ⟨e, he⟩ := Option.isSome_iff_exists.1 (hfmt j)
    have hl : ((j :: rest).map Entry.job ++ [Entry.malformed]
        ++ post.map Entry.job) = Entry.job j ::
          (rest.map Entry.job ++ [Entry.malformed] ++ post.map Entry.job) := by
      simp
    rw [hl]
    simp only [postLoopAbort, he, if_true]
    refine ⟨?_, (ih (i + 1)).2⟩
    simp only [List.length_cons, (ih (i + 1)).1]
    omega

/-- A malformed entry anywhere in the fetched array makes the post_jobs
categorization loop raise. -/
theorem extractRecs_of_mem_malformed (es : List Entry)
    (h : Entry.malformed ∈ es) : extractRecs es = .error () := by
  induction es with
  | nil => cases h
  | cons e rest ih =>
    cases e with
    | malformed => rfl
    | job j =>
      have hr : Entry.malformed ∈ rest := by
        cases List.mem_cons.1 h with
        | inl hh => cases hh
        | inr hh => exact hh
      simp [extractRecs, ih hr, Except.map]

/-! ### Truncation lemmas -/

theorem truncate400_length (l : List Char) :
    (truncate400 l).data.length ≤ 403 := by
  unfold truncate400
  split
  · show (l.take 400 ++ "...".data).length ≤ 403
    simp only [List.length_append, List.length_take, List.length_cons,
      List.length_nil]
    omega
  · show l.length ≤ 403
    omega

theorem truncate400_of_le (l : List Char) (h : l.length ≤ 400) :
    truncate400 l = ⟨l⟩ := by
  unfold truncate400
  rw [if_neg]
  omega

theorem truncate400_of_gt (l : List Char) (h : 400 < l.length) :
    truncate400 l = ⟨l.take 400 ++ "...".data⟩ ∧
    (truncate400 l).data.length = 403 := by
  unfold truncate400
  rw [if_pos (by omega)]
  refine ⟨rfl, ?_⟩
  show (l.take 400 ++ "...".data).length = 403
  simp only [List.length_append, List.length_take, List.length_cons,
    List.length_nil]
  omega

/-! ### Claim C3 -/

/-- C3 counterexample: in post_security_jobs.post_to_discord the whole
posting loop runs in one try-block, so a delivery failure on message 3 of
a 5-message batch aborts the batch: only messages 1-3 (indices 0-2) are
attempted, messages 4 and 5 (indices 3 and 4) never are, and the function
returns only `False` — no success/failure counts. -/
theorem C3_counterexample :
    (secPostToDiscord true (fun i => decide (i ≠ 2))
        (List.replicate 5 (Entry.job {}))).1 = [0, 1, 2] ∧
    (secPostToDiscord true (fun i => decide (i ≠ 2))
        (List.replicate 5 (Entry.job {}))).2 = false ∧
    3 ∉ (secPostToDiscord true (fun i => decide (i ≠ 2))
        (List.replicate 5 (Entry.job {}))).1 ∧
    4 ∉ (secPostToDiscord true (fun i => decide (i ≠ 2))
        (List.replicate 5 (Entry.job {}))).1 := by
  refine ⟨by decide, by decide, by decide, by decide⟩

/-- C3 amended: only the multi-channel post_jobs variant is
partial-failure tolerant — each delivery runs in its own try-block, every
message of the batch is attempted whatever deliveries fail, and the number
of successes is accumulated (failures are only logged, never counted); in
particular 5 messages whose 3rd delivery fails yield 5 attempts and 4
counted successes.  In the single-channel security/support variants one
delivery failure aborts the remaining posts of the batch. -/
theorem C3_amended :
    (∀ (deliver : Nat → Bool) (jobs : List JobRec) (i : Nat),
      (jobsChannelLoop deliver jobs i).1 =
        (List.range jobs.length).map (fun x => x + i) ∧
      (jobsChannelLoop deliver jobs i).2 =
        (((List.range jobs.length).map (fun x => x + i)).countP deliver)) ∧
    (jobsChannelLoop (fun k => decide (k ≠ 2))
        (List.replicate 5 ({} : JobRec)) 0).1.length = 5 ∧
    (jobsChannelLoop (fun k => decide (k ≠ 2))
        (List.replicate 5 ({} : JobRec)) 0).2 = 4 := by
  refine ⟨fun deliver jobs i => ?_, by decide, by decide⟩
  rw [jobsChannelLoop_spec]
  exact ⟨rfl, rfl⟩

/-! ### Claim C4 -/

/-- C4 counterexample: in post_jobs.format_job_embed the ellipsis marker
is appended whenever the description is non-empty, not only when
truncation occurred: the 2-character description "hi" (far below the cap)
is rendered "hi...". -/
theorem C4_counterexample :
    jobsCleanDescription "hi" = "hi..." ∧
    formatJobEmbedJobs (Entry.job { description := some "hi" }) =
      Except.ok { title := "Untitled Position"
                  description := "hi..."
                  color := 0x5865F2
                  fields := [
                    ⟨"Company", "Not specified", true⟩,
                    ⟨"Location", "Remote/Not specified", true⟩,
                    ⟨"Type", "Not specified", true⟩,
                    ⟨"Experience", "Not specified", true⟩,
                    ⟨"Salary", "Not disclosed", true⟩,
                    ⟨"Remote", "Not specified", true⟩ ]
                  footerText := "Posted: Unknown • Via Hirebase API"
                  url := none } ∧
    ("hi..." : String) ≠ "hi" := by
  refine ⟨by decide, rfl, by decide⟩

/-- C4 amended: in the support variant the body is the first non-empty
value among requirements_summary and description with `<...>` tags
stripped, truncated at 400 characters with "..." appended exactly when the
stripped text exceeds 400 characters — so the body may reach 403
characters, i.e. cap + marker, not the cap itself — and a neutral
placeholder when both are absent/empty; the body never exceeds 403
characters.  In the post_jobs variant the first 300 stripped characters
are kept, "..." is appended whenever the description is non-empty, and the
body never exceeds 303 characters. -/
theorem C4_amended (requirements_summary description : Option String) :
    (supDescription requirements_summary description).data.length ≤ 403 ∧
    (requirements_summary.getD "" ≠ "" →
      supDescription requirements_summary description =
        truncate400 (stripHtml (requirements_summary.getD "").data)) ∧
    (requirements_summary.getD "" = "" → description.getD "" ≠ "" →
      supDescription requirements_summary description =
        truncate400 (stripHtml (description.getD "").data)) ∧
    (requirements_summary.getD "" = "" → description.getD "" = "" →
      supDescription requirements_summary description =
        "Click below to view full job details") ∧
    (∀ l : List Char,
      (l.length ≤ 400 → truncate400 l = ⟨l⟩) ∧
      (400 < l.length → truncate400 l = ⟨l.take 400 ++ "...".data⟩ ∧
        (truncate400 l).data.length = 403)) ∧
    (∀ s : String, (jobsCleanDescription s).data.length ≤ 303) := by
  have heq : supDescription requirements_summary description =
      (if pyOr (requirements_summary.getD "") (description.getD "") ≠ "" then
        truncate400 (stripHtml
          (pyOr (requirements_summary.getD "") (description.getD "")).data)
      else "Click below to view full job details") := rfl
  have hpyOr_pos : ∀ a b : String, a ≠ "" → pyOr a b = a := by
    intro a b h
    unfold pyOr
    rw [if_pos h]
  have hpyOr_neg : ∀ a b : String, a = "" → pyOr a b = b := by
    intro a b h
    unfold pyOr
    rw [if_neg (fun hh => hh h)]
  refine ⟨?_, ?_, ?_, ?_, fun l => ⟨truncate400_of_le l, truncate400_of_gt l⟩, ?_⟩
  · rw [heq]
    split
    · exact truncate400_length _
    · decide
  · intro h
    rw [heq, hpyOr_pos _ _ h, if_pos h]
  · intro h1 h2
    rw [heq, hpyOr_neg _ _ h1, if_pos h2]
  · intro h1 h2
    rw [heq, hpyOr_neg _ _ h1, if_neg (fun hh => hh h2)]
  · intro s
    unfold jobsCleanDescription
    by_cases h : s = ""
    · rw [if_neg (fun hh => hh h)]
      decide
    · rw [if_pos h]
      show ((stripHtml s.data).take 300 ++ "...".data).length ≤ 303
      simp only [List.length_append, List.length_take, List.length_cons,
        List.length_nil]
      omega

/-- C4 witness: a description with a tag and no truncation keeps no
ellipsis in the support variant. -/
theorem C4_amended_witness :
    supDescription (some "a<b>c") none = truncate400 (stripHtml "a<b>c".data) ∧
    truncate400 (stripHtml "a<b>c".data) = "ac" := by
  refine ⟨(C4_amended (some "a<b>c") none).2.1 (by decide), by decide⟩

/-! ### Claim C5 -/

/-- C5 counterexample: post_jobs.format_salary always appends "/period"
(defaulting to "year"), so {min: 90000, max: 120000, currency: "USD"}
renders "$90,000 - $120,000 USD/year", not exactly
"$90,000 - $120,000 USD". -/
theorem C5_counterexample :
    format_salary (some { min := some 90000, max := some 120000,
                          currency := some "USD" }) =
      "$90,000 - $120,000 USD/year" ∧
    ("$90,000 - $120,000 USD/year" : String) ≠ "$90,000 - $120,000 USD" := by
  refine ⟨by decide, by decide⟩

/-- C5 amended: with min and max both present and nonzero,
post_jobs.format_salary renders "$min - $max currency/period" (comma
grouped, currency defaulting to USD, period to year — the period suffix is
always present), so the reference input renders
"$90,000 - $120,000 USD/year"; otherwise it renders "Not disclosed".  The
exact string "$90,000 - $120,000 USD" is produced by the security/support
variant's salary field, which omits the field (rather than defaulting it)
when min or max is missing or zero. -/
theorem C5_amended :
    (∀ r : SalaryRange, truthyNum r.min = true → truthyNum r.max = true →
      format_salary (some r) =
        "$" ++ numComma (r.min.getD 0) ++ " - $" ++ numComma (r.max.getD 0)
          ++ " " ++ r.currency.getD "USD" ++ "/" ++ r.period.getD "year") ∧
    (∀ r : SalaryRange, ¬(truthyNum r.min = true ∧ truthyNum r.max = true) →
      format_salary (some r) = "Not disclosed") ∧
    format_salary none = "Not disclosed" ∧
    secSalaryField (some { min := some 90000, max := some 120000,
                           currency := some "USD" }) =
      some ⟨"Salary", "$90,000 - $120,000 USD", true⟩ ∧
    secSalaryField (some { min := none, max := some 120000 }) = none ∧
    secSalaryField none = none := by
  have heq : ∀ r : SalaryRange, format_salary (some r) =
      (if (truthyNum r.min && truthyNum r.max) = true then
        "$" ++ numComma (r.min.getD 0) ++ " - $" ++ numComma (r.max.getD 0)
          ++ " " ++ r.currency.getD "USD" ++ "/" ++ r.period.getD "year"
      else "Not disclosed") := fun r => rfl
  refine ⟨?_, ?_, rfl, by decide, by decide, rfl⟩
  · intro r h1 h2
    have hc : (truthyNum r.min && truthyNum r.max) = true := by
      rw [h1, h2]
      rfl
    rw [heq, if_pos hc]
  · intro r h
    cases h1 : truthyNum r.min with
    | false =>
      have hc : (truthyNum r.min && truthyNum r.max) = false := by
        rw [h1]
        rfl
      rw [heq, if_neg (by rw [hc]; exact Bool.false_ne_true)]
    | true =>
      cases h2 : truthyNum r.max with
      | false =>
        have hc : (truthyNum r.min && truthyNum r.max) = false := by
          rw [h1, h2]
          rfl
        rw [heq, if_neg (by rw [hc]; exact Bool.false_ne_true)]
      | true => exact absurd ⟨h1, h2⟩ h

/-- C5 witness: the reference salary range through post_jobs.format_salary. -/
theorem C5_amended_witness :
    format_salary (some { min := some 90000, max := some 120000,
                          currency := some "USD" }) =
      "$90,000 - $120,000 USD/year" := by
  have h := C5_amended.1 { min := some 90000, max := some 120000,
                           currency := some "USD" } (by decide) (by decide)
  rw [h]
  decide

/-! ### Claim C6 -/

/-- C6 counterexample: the single-channel security variant has no cap at
all — with 11 fetched jobs and every delivery succeeding, post_to_discord
attempts all 11 job messages, exceeding both claimed caps (5 and 10). -/
theorem C6_counterexample :
    (secPostToDiscord true (fun _ => true)
        (List.replicate 11 (Entry.job {}))).1.length = 11 ∧
    ¬ (11 : Nat) ≤ 10 := by
  refine ⟨?_, by decide⟩
  have h := postLoopAbort_all_success formatJobEmbedSec (fun j => rfl)
    (List.replicate 11 ({} : JobRec)) 0
  have hrep : (List.replicate 11 ({} : JobRec)).map Entry.job =
      List.replicate 11 (Entry.job {}) := by decide
  rw [hrep] at h
  show (secPostToDiscord true (fun _ => true)
      (List.replicate 11 (Entry.job {}))).1.length = 11
  unfold secPostToDiscord
  rw [if_neg (by decide), if_pos rfl, h]
  decide

/-- C6 amended: post_jobs posts at most 5 messages per category
(`channel_jobs[:5]`) and post_support at most 10 (`jobs[:10]`), both
earliest-first with no re-sorting — with all deliveries succeeding the
attempted indices are exactly `0, …, min(cap, n) - 1` of the incoming
order; the single-channel security variant posts every message, with no
cap. -/
theorem C6_amended :
    (∀ (deliver : Nat → Bool) (jobs : List JobRec),
      (jobsDispatchChannel deliver jobs).1 = List.range (min 5 jobs.length)) ∧
    (∀ jobs : List JobRec, jobs ≠ [] →
      (supPostToDiscord true (fun _ => true) (jobs.map Entry.job)).1 =
        List.range (min 10 jobs.length)) ∧
    (∀ jobs : List JobRec, jobs ≠ [] →
      (secPostToDiscord true (fun _ => true) (jobs.map Entry.job)).1 =
        List.range jobs.length) := by
  have hmapnil : ∀ jobs : List JobRec, jobs ≠ [] →
      ((jobs.map Entry.job).isEmpty = true) → False := by
    intro jobs hne hie
    rw [List.isEmpty_iff, List.map_eq_nil_iff] at hie
    exact hne hie
  refine ⟨?_, ?_, ?_⟩
  · intro deliver jobs
    unfold jobsDispatchChannel
    rw [jobsChannelLoop_spec]
    show ((List.range (jobs.take 5).length).map (fun x => x + 0)) =
      List.range (min 5 jobs.length)
    rw [List.length_take]
    simp
  · intro jobs hne
    unfold supPostToDiscord
    rw [if_neg (fun hh => hmapnil jobs hne hh), if_pos rfl]
    rw [← List.map_take]
    rw [postLoopAbort_all_success formatJobEmbedSup (fun j => rfl)
      (jobs.take 10) 0]
    rw [List.length_take]
    simp
  · intro jobs hne
    unfold secPostToDiscord
    rw [if_neg (fun hh => hmapnil jobs hne hh), if_pos rfl]
    rw [postLoopAbort_all_success formatJobEmbedSec (fun j => rfl) jobs 0]
    simp

/-- C6 witness: twelve messages — post_jobs' dispatcher takes 5,
post_support takes 10, post_security takes all 12. -/
theorem C6_amended_witness :
    (jobsDispatchChannel (fun _ => true)
        (List.replicate 12 ({} : JobRec))).1 = List.range 5 ∧
    (supPostToDiscord true (fun _ => true)
        ((List.replicate 12 ({} : JobRec)).map Entry.job)).1 = List.range 10 ∧
    (secPostToDiscord true (fun _ => true)
        ((List.replicate 12 ({} : JobRec)).map Entry.job)).1 = List.range 12 := by
  refine ⟨?_, ?_, ?_⟩
  · have h := C6_amended.1 (fun _ => true) (List.replicate 12 ({} : JobRec))
    rw [h]
    rfl
  · have h := C6_amended.2.1 (List.replicate 12 ({} : JobRec)) (by simp)
    rw [h]
    rfl
  · have h := C6_amended.2.2 (List.replicate 12 ({} : JobRec)) (by simp)
    rw [h]
    rfl

/-! ### Claim C7 -/

/-- C7 counterexample: in post_jobs a fetch failure is re-raised, caught
only by the top-level handler, and the run exits 1 — not 0 — with no posts
attempted; the failure is not treated as "zero jobs found". -/
theorem C7_counterexample :
    jobsMain "key" FetchOutcome.httpError (fun _ => none) (fun _ _ => true) =
      (1, 0, 0) ∧
    (1 : Nat) ≠ 0 := by
  refine ⟨by decide, by decide⟩

/-- C7 amended: in the security and support variants every fetch failure
(HTTP error or request error, including a malformed body) is caught and
treated as zero jobs found — logged, no posts attempted, clean exit 0.  In
the post_jobs variant the same failures propagate to the top-level handler
and the run exits 1, likewise with no posts attempted. -/
theorem C7_amended (o : FetchOutcome)
    (ho : o = FetchOutcome.httpError ∨ o = FetchOutcome.reqError)
    (ak wh : Option String) (hak : pyTruthy (ak.getD "") = true)
    (hwh : pyTruthy (wh.getD "") = true) (ds : Bool) (dl : Nat → Bool) :
    secMain ak wh o ds dl =
      { exitCode := 0, fetchCalls := 1, postCalls := 0, errMsg := none } ∧
    (pyStrip (ak.getD "") ≠ "" → pyStrip (wh.getD "") ≠ "" →
      supMain ak wh o ds dl =
        { exitCode := 0, fetchCalls := 1, postCalls := 0, errMsg := none }) ∧
    (∀ (key : String) (hooks : Channel → Option String)
      (deliver : Channel → Nat → Bool),
      jobsMain key o hooks deliver = (1, 0, 0)) := by
  have hjobs : fetchJobsNonfatal o = [] := by
    rcases ho with rfl | rfl <;> rfl
  refine ⟨?_, ?_, ?_⟩
  · unfold secMain validate_environment
    rw [hak, hwh]
    simp only [if_true, List.nil_append, List.isEmpty_nil, hjobs]
  · intro h1 h2
    unfold supMain
    rw [if_neg (fun hh => h1 hh), if_neg (fun hh => h2 hh), hjobs]
    rfl
  · intro key hooks deliver
    unfold jobsMain fetchJobsFatal
    rcases ho with rfl | rfl <;> by_cases hk : key = "" <;>
      simp [hk]

/-- C7 witness: an HTTP error run through all three variants. -/
theorem C7_amended_witness :
    secMain (some "k") (some "h") FetchOutcome.httpError true (fun _ => true) =
      { exitCode := 0, fetchCalls := 1, postCalls := 0, errMsg := none } ∧
    supMain (some "k") (some "h") FetchOutcome.httpError true (fun _ => true) =
      { exitCode := 0, fetchCalls := 1, postCalls := 0, errMsg := none } ∧
    jobsMain "k" FetchOutcome.httpError (fun _ => some "h") (fun _ _ => true) =
      (1, 0, 0) := by
  have h := C7_amended FetchOutcome.httpError (Or.inl rfl) (some "k") (some "h")
    (by decide) (by decide) true (fun _ => true)
  exact ⟨h.1, h.2.1 (by decide) (by decide),
    h.2.2 "k" (fun _ => some "h") (fun _ _ => true)⟩

/-! ### Claim C8 -/

/-- C8 counterexample: with both required secrets missing, post_support
aborts with an error naming only HIREBASE_API_KEY — the name
DISCORD_SECURITY_HOOK does not appear in the message, refuting "both names
appear in the error". -/
theorem C8_counterexample :
    (supMain none none FetchOutcome.reqError true (fun _ => true)).errMsg =
      some "HIREBASE_API_KEY not configured" ∧
    (supMain none none FetchOutcome.reqError true (fun _ => true)).exitCode = 1 ∧
    (supMain none none FetchOutcome.reqError true (fun _ => true)).fetchCalls = 0 ∧
    listContains "HIREBASE_API_KEY not configured".data
      "DISCORD_SECURITY_HOOK".data = false := by
  refine ⟨by decide, by decide, by decide, by decide⟩

/-- C8 amended: a missing secret aborts the run before any network call
with exit code 1.  The security variant collects every missing name: with
both missing, the error lists both HIREBASE_API_KEY and
DISCORD_SECURITY_HOOK.  The support variant checks the API key first and
raises with only the first missing name, so with both missing only
HIREBASE_API_KEY appears. -/
theorem C8_amended (ak wh : Option String)
    (hak : pyTruthy (ak.getD "") = false) (hwh : pyTruthy (wh.getD "") = false)
    (o : FetchOutcome) (ds : Bool) (dl : Nat → Bool) :
    secMain ak wh o ds dl =
      { exitCode := 1, fetchCalls := 0, postCalls := 0,
        errMsg := some ("Missing required environment variables: "
          ++ "HIREBASE_API_KEY, DISCORD_SECURITY_HOOK") } ∧
    (pyStrip (ak.getD "") = "" →
      supMain ak wh o ds dl =
        { exitCode := 1, fetchCalls := 0, postCalls := 0,
          errMsg := some "HIREBASE_API_KEY not configured" }) := by
  constructor
  · unfold secMain validate_environment
    rw [hak, hwh]
    rfl
  · intro h1
    unfold supMain
    rw [if_pos h1]

/-- C8 witness: both secrets unset — the security variant's error message
contains both names as substrings; the support variant's only the first. -/
theorem C8_amended_witness :
    secMain none none FetchOutcome.reqError true (fun _ => true) =
      { exitCode := 1, fetchCalls := 0, postCalls := 0,
        errMsg := some ("Missing required environment variables: "
          ++ "HIREBASE_API_KEY, DISCORD_SECURITY_HOOK") } ∧
    supMain none none FetchOutcome.reqError true (fun _ => true) =
      { exitCode := 1, fetchCalls := 0, postCalls := 0,
        errMsg := some "HIREBASE_API_KEY not configured" } ∧
    listContains ("Missing required environment variables: "
        ++ "HIREBASE_API_KEY, DISCORD_SECURITY_HOOK").data
      "HIREBASE_API_KEY".data = true ∧
    listContains ("Missing required environment variables: "
        ++ "HIREBASE_API_KEY, DISCORD_SECURITY_HOOK").data
      "DISCORD_SECURITY_HOOK".data = true := by
  have h := C8_amended none none (by decide) (by decide) FetchOutcome.reqError
    true (fun _ => true)
  exact ⟨h.1, h.2 (by decide), by decide, by decide⟩

/-! ### Claim C9 -/

/-- C9 counterexample: in post_jobs a non-mapping job entry raises
`AttributeError` inside the categorization loop, and the top-level handler
exits 1 with nothing posted — the record is not skipped and processing of
the rest of the batch does not continue. -/
theorem C9_counterexample :
    jobsMain "key" (FetchOutcome.ok [Entry.job {}, Entry.malformed])
      (fun _ => some "hook") (fun _ _ => true) = (1, 0, 0) ∧
    (1 : Nat) ≠ 0 := by
  refine ⟨by decide, by decide⟩

/-- C9 amended: in the security and support variants a non-mapping job
yields the sentinel `none` from format_job_embed, that record alone is
skipped, and every remaining record of the batch is still posted.  In the
post_jobs variant a non-mapping entry raises during categorization and
aborts the whole run (exit 1, nothing posted). -/
theorem C9_amended (pre post : List JobRec) :
    formatJobEmbedSec Entry.malformed = none ∧
    formatJobEmbedSup Entry.malformed = none ∧
    (postLoopAbort formatJobEmbedSec (fun _ => true)
        (pre.map Entry.job ++ [Entry.malformed] ++ post.map Entry.job)
        0).1.length = pre.length + post.length ∧
    (postLoopAbort formatJobEmbedSec (fun _ => true)
        (pre.map Entry.job ++ [Entry.malformed] ++ post.map Entry.job)
        0).2 = true ∧
    (∀ (key : String) (es : List Entry), Entry.malformed ∈ es →
      ∀ (hooks : Channel → Option String) (deliver : Channel → Nat → Bool),
        jobsMain key (FetchOutcome.ok es) hooks deliver = (1, 0, 0)) := by
  have hmid := postLoopAbort_malformed_middle formatJobEmbedSec (fun j => rfl)
    rfl pre post 0
  refine ⟨rfl, rfl, hmid.1, hmid.2, ?_⟩
  intro key es hmem hooks deliver
  have hne : es.isEmpty = false := by
    cases es with
    | nil => cases hmem
    | cons e rest => rfl
  have hext := extractRecs_of_mem_malformed es hmem
  by_cases hk : key = ""
  · unfold jobsMain fetchJobsFatal
    rw [if_pos hk]
  · unfold jobsMain fetchJobsFatal
    rw [if_neg hk]
    simp only [hne, hext, Bool.false_eq_true, if_false]

/-- C9 witness: a malformed record between two valid ones is skipped by the
security posting loop with the other two attempted; a batch containing a
malformed record makes the post_jobs run exit 1 with nothing posted. -/
theorem C9_amended_witness :
    (postLoopAbort formatJobEmbedSec (fun _ => true)
        ([({} : JobRec)].map Entry.job ++ [Entry.malformed]
          ++ [({} : JobRec)].map Entry.job) 0).1.length = 2 ∧
    jobsMain "key" (FetchOutcome.ok [Entry.malformed]) (fun _ => some "hook")
      (fun _ _ => true) = (1, 0, 0) := by
  refine ⟨?_, (C9_amended [] []).2.2.2.2 "key" [Entry.malformed]
    (List.mem_singleton.2 rfl) (fun _ => some "hook") (fun _ _ => true)⟩
  have h := (C9_amended [{}] [{}]).2.2.1
  simpa using h
